import Mathlib

/-!
Shallow embedding of `src/api/index.py` (Flask flood-hazard server).

The file contains two copies of the same application: a Vercel variant
(lines 1–126) and a standalone "map test.py" variant (lines 129–256).
We embed both.  External effects (the geolocation HTTP call, the
`gpd.read_file` dataset read, CRS reprojection, `os.path.exists`,
the dataset download) are inputs of the embedded functions; Python
exceptions are `Except.error`.
-/

namespace FloodApp

/-- Numeric coordinates (exact model of the latitude/longitude numbers). -/
abbrev Coord := Rat

/-- Parsed JSON body of the geolocation response: `geo_data.get("latitude")`
and `geo_data.get("longitude")`; `none` models an absent field. -/
structure GeoData where
  latitude : Option Coord
  longitude : Option Coord
deriving DecidableEq

/-- Outcome of `requests.get(geo_url, timeout=5)` followed by `.json()`:
either the request raised (network failure, timeout, unparsable body),
or it produced a status code and a parsed body. -/
inductive HttpResult where
  | failure (msg : String)
  | success (status : Nat) (data : GeoData)
deriving DecidableEq

/-- One row of the GeoPackage dataset: a polygon geometry (modelled by its
point-membership test, the "within" predicate) and its
`SOIL_FLOOD_HAZARD` attribute (`none` models a missing/NaN label). -/
structure PolyRow where
  contains : Coord × Coord → Bool
  hazard : Option String

/-- The in-memory result of `gpd.read_file(DATA_FILE)`: an ordered row
collection plus a CRS identifier. -/
structure Dataset where
  crs : String
  rows : List PolyRow

/-- A point geometry carried in a GeoDataFrame with a CRS tag
(`Point(longitude, latitude)` inside `gpd.GeoDataFrame(..., crs=...)`). -/
structure TaggedPoint where
  x : Coord
  y : Coord
  crs : String
deriving DecidableEq

/-- `DATA_FILE = 'revised_map_data.gpkg'` (both variants). -/
def DATA_FILE : String := "revised_map_data.gpkg"

/-- Line 54: the geolocation URL, IP-specific when `ip_address` is truthy. -/
def geoUrl (ip : Option String) : String :=
  match ip with
  | some s =>
      if s = "" then ("https://get.geojs.io/v1/ip/geo.json")
      else ("https://get.geojs.io/v1/ip/geo/" ++ s ++ ".json")
  | none => "https://get.geojs.io/v1/ip/geo.json"

/-- Line 189 (standalone variant): the same URL construction. -/
def geoUrl_maptest (ip : Option String) : String :=
  match ip with
  | some s =>
      if s = "" then ("https://get.geojs.io/v1/ip/geo.json")
      else ("https://get.geojs.io/v1/ip/geo/" ++ s ++ ".json")
  | none => "https://get.geojs.io/v1/ip/geo.json"

/-- Lines 53–60: the `try` block around the geolocation call.
`requests.get` raising, `raise_for_status()` on a 4xx/5xx status, or a
body-parse failure are all caught and produce `none` (the early
`return None, None`); otherwise the parsed body comes back. -/
def geoLocate (r : HttpResult) : Option GeoData :=
  match r with
  | .failure _ => none
  | .success status data => if 400 ≤ status then none else some data

/-- Line 65 and 68: `Point(longitude, latitude)` wrapped in a
GeoDataFrame tagged `crs='EPSG:4326'` — longitude is x, latitude is y. -/
def mkQueryPoint (longitude latitude : Coord) : TaggedPoint :=
  ⟨longitude, latitude, "EPSG:4326"⟩

/-- Lines 71–72: `if point_gdf.crs != gdf.crs: point_gdf = point_gdf.to_crs(gdf.crs)`.
`reproject` is the environment's `to_crs` transform (target CRS, coords). -/
def alignCrs (reproject : String → Coord × Coord → Coord × Coord)
    (pt : TaggedPoint) (dsCrs : String) : TaggedPoint :=
  if pt.crs ≠ dsCrs then
    ⟨(reproject dsCrs (pt.x, pt.y)).1, (reproject dsCrs (pt.x, pt.y)).2, dsCrs⟩
  else pt

/-- Lines 75–76: `gpd.sjoin(point_gdf, gdf[['geometry','SOIL_FLOOD_HAZARD']],
how='left', predicate='within')` for a single left point: one result row
per polygon containing the point, in dataset order, and when there is no
match the left row is kept with a missing (NaN) label. -/
def sjoinWithin (p : Coord × Coord) (ds : Dataset) : List (Option String) :=
  let hits := (ds.rows.filter (fun r => r.contains p)).map PolyRow.hazard
  if hits.isEmpty then [none] else hits

/-- Lines 78–81: `hazard = result['SOIL_FLOOD_HAZARD'].iloc[0]` when the
result is nonempty and not all labels are missing, else `hazard = None`. -/
def selectHazard (result : List (Option String)) : Option String :=
  if 0 < result.length ∧ ¬ result.all Option.isNone then result.headD none
  else none

/-- The external world observed by one `get_flood_hazard_from_ip` call. -/
structure ResolverEnv where
  geo : HttpResult
  readFile : Except String Dataset
  reproject : String → Coord × Coord → Coord × Coord

/-- Result of one resolver call: the geolocation URL it requested, the
returned `(hazard, map_path)` pair (or the exception it raised), and how
many times it read the dataset file from disk. -/
structure ResolverOut where
  url : String
  result : Except String (Option String × Option String)
  fileReads : Nat

/-- Lines 48–83 (Vercel variant): `get_flood_hazard_from_ip`.
Geolocation failure returns `(None, None)`; then
`Point(longitude, latitude)` raises when either coordinate is absent
(`Point(None, ...)`); then `gpd.read_file(DATA_FILE)` (one file read,
its failure raising); then CRS alignment, the spatial join, label
selection, and `return hazard, current_map_path`. -/
def get_flood_hazard_from_ip (env : ResolverEnv) (ip : Option String)
    (current_map_path : Option String) : ResolverOut :=
  match geoLocate env.geo with
  | none => ⟨geoUrl ip, .ok (none, none), 0⟩
  | some gd =>
    match gd.longitude, gd.latitude with
    | some lon, some lat =>
      match env.readFile with
      | .error e => ⟨geoUrl ip, .error e, 1⟩
      | .ok gdf =>
        let pt := alignCrs env.reproject (mkQueryPoint lon lat) gdf.crs
        ⟨geoUrl ip, .ok (selectHazard (sjoinWithin (pt.x, pt.y) gdf), current_map_path), 1⟩
    | _, _ => ⟨geoUrl ip, .error ("Point coordinates must be numeric, not None"), 0⟩

/-- Lines 183–218 (standalone "map test.py" variant): the second
`get_flood_hazard_from_ip`, transcribed independently from its own
lines. -/
def get_flood_hazard_from_ip_maptest (env : ResolverEnv) (ip : Option String)
    (current_map_path : Option String) : ResolverOut :=
  match geoLocate env.geo with
  | none => ⟨geoUrl_maptest ip, .ok (none, none), 0⟩
  | some gd =>
    match gd.longitude, gd.latitude with
    | some lon, some lat =>
      match env.readFile with
      | .error e => ⟨geoUrl_maptest ip, .error e, 1⟩
      | .ok gdf =>
        let pt := alignCrs env.reproject (mkQueryPoint lon lat) gdf.crs
        ⟨geoUrl_maptest ip,
         .ok (selectHazard (sjoinWithin (pt.x, pt.y) gdf), current_map_path), 1⟩
    | _, _ => ⟨geoUrl_maptest ip, .error ("Point coordinates must be numeric, not None"), 0⟩

/-- Python `str.split(',')[0]`: the characters before the first comma
(the whole string when it has no comma). -/
def pySplitFirst (s : String) : String :=
  String.mk (s.data.takeWhile (fun c => c ≠ ','))

/-- Python `str.isspace` characters removed by `str.strip()`. -/
def pyIsSpace (c : Char) : Bool :=
  c = ' ' || c = '\t' || c = '\n' || c = '\r' || c = '\x0b' || c = '\x0c'

/-- Python `str.strip()`: remove leading and trailing whitespace. -/
def pyStrip (s : String) : String :=
  String.mk (((s.data.dropWhile pyIsSpace).reverse.dropWhile pyIsSpace).reverse)

/-- An incoming HTTP request, as the handlers observe it:
`request.headers.get('X-Forwarded-For')` and `request.remote_addr`
(either may be absent). -/
structure Request where
  xForwardedFor : Option String
  remoteAddr : Option String

/-- Lines 96–99 (Vercel variant): `headers.get('X-Forwarded-For',
request.remote_addr)`, then — when the value is truthy —
`.split(',')[0].strip()`. -/
def extractIp (req : Request) : Option String :=
  match req.xForwardedFor.orElse (fun _ => req.remoteAddr) with
  | none => none
  | some s => if s = "" then some s else some (pyStrip (pySplitFirst s))

/-- Line 232 (standalone variant): `ip_address = request.remote_addr`
(no forwarded-for header, no normalization). -/
def extractIpStd (req : Request) : Option String :=
  req.remoteAddr

/-- Response of `/check_flood_hazard`: lines 104–107 return a 200 JSON
body with exactly the keys `hazard` and `map_available`; line 109
returns `{'error': str(e)}` with status 500. -/
inductive HazardResponse where
  | ok (hazard : Option String) (map_available : Bool)
  | error (msg : String)
deriving DecidableEq

/-- The HTTP status code of a `/check_flood_hazard` response. -/
def HazardResponse.status : HazardResponse → Nat
  | .ok _ _ => 200
  | .error _ => 500

/-- Lines 91–109 (Vercel variant): the `/check_flood_hazard` handler.
Returns the response together with the new value of the global
`current_map_path` (line 102; unchanged when the `except` branch runs,
since the assignment is never reached). -/
def check_flood_hazard (env : ResolverEnv) (req : Request)
    (current_map_path : Option String) : HazardResponse × Option String :=
  let out := get_flood_hazard_from_ip env (extractIp req) current_map_path
  match out.result with
  | .ok (hazard, map_path) => (.ok hazard map_path.isSome, map_path)
  | .error e => (.error e, current_map_path)

/-- Response of `/map`: `send_file(current_map_path, mimetype='image/png')`
or `("Map not found", 404)`. -/
inductive MapResponse where
  | file (path : String)
  | notFound
deriving DecidableEq

/-- The HTTP status code of a `/map` response. -/
def MapResponse.status : MapResponse → Nat
  | .file _ => 200
  | .notFound => 404

/-- The body of the 404 `/map` response (line 119). -/
def mapNotFoundBody : String := "Map not found"

/-- Lines 112–119: the `/map` handler.  `if current_map_path and
os.path.exists(current_map_path)` — the Python `and` first tests
truthiness of the path (None and `''` are falsy). -/
def serve_map (fileExists : String → Bool) (current_map_path : Option String) :
    MapResponse :=
  match current_map_path with
  | none => .notFound
  | some p =>
      if p = "" then .notFound
      else if fileExists p then .file p else .notFound

/-- The reachable values of the process-wide `current_map_path`:
initialized to `None` (line 15) and rewritten only by
`/check_flood_hazard` requests (line 102); `/map` never writes it. -/
inductive Reachable : Option String → Prop where
  | init : Reachable none
  | step (env : ResolverEnv) (req : Request) {st : Option String} :
      Reachable st → Reachable (check_flood_hazard env req st).2

/-- A sequence of `/check_flood_hazard` requests against a fixed external
environment, threading `current_map_path` and accumulating the total
number of dataset-file reads. -/
def runRequests (env : ResolverEnv) (reqs : List Request)
    (current_map_path : Option String) : Nat × Option String :=
  match reqs with
  | [] => (0, current_map_path)
  | r :: rs =>
      let out := check_flood_hazard env r current_map_path
      let reads := (get_flood_hazard_from_ip env (extractIp r) current_map_path).fileReads
      let rest := runRequests env rs out.2
      (reads + rest.1, rest.2)

/-- The external world observed by one `download_map_data` call:
whether `os.path.exists(DATA_FILE)` holds, and the outcome of the
streaming `requests.get(DATA_URL, stream=True, timeout=300)` together
with `iter_content(chunk_size=8192)` (a chunk list, or a raised error —
also covering `raise_for_status()`). -/
structure DownloadEnv where
  fileExists : Bool
  fetch : Except String (List String)

/-- Result of one `download_map_data` call: the returned path (or the
re-raised exception), whether an HTTP download was attempted, and the
chunks written to the local file. -/
structure DownloadOut where
  result : Except String String
  downloaded : Bool
  written : List String

/-- Lines 21–40 (both variants): `download_map_data`.  If the file
exists, return its path with no download; otherwise stream-download and
write the chunks; any failure is printed and re-raised (`raise`). -/
def download_map_data (env : DownloadEnv) : DownloadOut :=
  if env.fileExists then ⟨.ok DATA_FILE, false, []⟩
  else
    match env.fetch with
    | .ok chunks => ⟨.ok DATA_FILE, true, chunks⟩
    | .error e => ⟨.error e, true, []⟩

/-! ### Concrete fixtures for witnesses and counterexamples -/

/-- Identity reprojection (a concrete `to_crs` transform). -/
def rpId : String → Coord × Coord → Coord × Coord := fun _ p => p

/-- Example dataset from spec §8: one polygon covering the bounding box
(-10,-10)–(10,10), labelled HIGH. -/
def dsHigh : Dataset :=
  ⟨"EPSG:4326",
   [⟨fun p => decide (-10 ≤ p.1 ∧ p.1 ≤ 10 ∧ -10 ≤ p.2 ∧ p.2 ≤ 10), some ("HIGH")⟩]⟩

/-- A dataset whose first polygon has a missing `SOIL_FLOOD_HAZARD`
label and whose second has label HIGH; both contain every point. -/
def dsNanFirst : Dataset :=
  ⟨"EPSG:4326", [⟨fun _ => true, none⟩, ⟨fun _ => true, some ("HIGH")⟩]⟩

/-- An environment where geolocation succeeds at (0,0) and the dataset
reads as `dsHigh`. -/
def envOk : ResolverEnv := ⟨.success 200 ⟨some 0, some 0⟩, .ok dsHigh, rpId⟩

/-- A request carrying both a forwarded-for header and a remote address. -/
def reqEx : Request := ⟨some ("1.2.3.4"), some ("9.9.9.9")⟩

/-- The hazard rule the code implements, stated directly over the
dataset rows: when the within-join has at least one match and not every
matched label is missing, the label of the FIRST matched row — which may
itself be missing — and the no-data sentinel otherwise. -/
def firstRowLabel (gdf : Dataset) (p : Coord × Coord) : Option String :=
  let hits := (gdf.rows.filter (fun r => r.contains p)).map PolyRow.hazard
  if hits.isEmpty || hits.all Option.isNone then none else hits.headD none

/-! ### Helper lemmas -/

/-- The resolver only ever returns `current_map_path` itself (or `none`)
as the map path: line 83 returns the global unchanged. -/
theorem resolver_map_path_passthrough (env : ResolverEnv) (ip cur : Option String)
    (hz mp : Option String)
    (h : (get_flood_hazard_from_ip env ip cur).result = .ok (hz, mp)) :
    mp = none ∨ mp = cur := by
  unfold get_flood_hazard_from_ip at h
  cases hg : geoLocate env.geo with
  | none => simp [hg] at h; exact Or.inl h.2.symm
  | some gd =>
    cases hlon : gd.longitude with
    | none => simp [hg, hlon] at h
    | some lon =>
      cases hlat : gd.latitude with
      | none => simp [hg, hlon, hlat] at h
      | some lat =>
        cases hrf : env.readFile with
        | error e => simp [hg, hlon, hlat, hrf] at h
        | ok gdf => simp [hg, hlon, hlat, hrf] at h; exact Or.inr h.2.symm

/-- Every `/check_flood_hazard` request leaves `current_map_path` at
`none` when it was `none` before. -/
theorem check_preserves_none (env : ResolverEnv) (req : Request) :
    (check_flood_hazard env req none).2 = none := by
  unfold check_flood_hazard
  cases h : (get_flood_hazard_from_ip env (extractIp req) none).result with
  | error e => simp [h]
  | ok p =>
    obtain ⟨hz, mp⟩ := p
    have := resolver_map_path_passthrough env (extractIp req) none hz mp h
    simp [h]
    rcases this with h1 | h1 <;> exact h1

/-! ### Claims -/

/-- Claim C3: the process-wide `current_map_path` is `none` in every
reachable state — it starts at `none`, the resolver passes the prior
value (or `none`) through, so every write re-writes `none`; hence every
successful `/check_flood_hazard` response has `map_available = false`
and every `/map` request answers 404 "Map not found". -/
theorem C3_current_map_path_always_none (st : Option String) (h : Reachable st) :
    st = none ∧
    (∀ env ip cur hz mp,
      (get_flood_hazard_from_ip env ip cur).result = .ok (hz, mp) →
      mp = none ∨ mp = cur) ∧
    (∀ env req hz b, (check_flood_hazard env req st).1 = .ok hz b → b = false) ∧
    (∀ fe, serve_map fe st = .notFound) := by
  have hn : st = none := by
    induction h with
    | init => rfl
    | step env req hst ih => rw [ih]; exact check_preserves_none env req
  subst hn
  refine ⟨rfl, fun env ip cur hz mp h => resolver_map_path_passthrough env ip cur hz mp h,
    ?_, fun fe => rfl⟩
  intro env req hz b hok
  unfold check_flood_hazard at hok
  cases hres : (get_flood_hazard_from_ip env (extractIp req) none).result with
  | error e => simp [hres] at hok
  | ok p =>
    obtain ⟨hz2, mp⟩ := p
    have := resolver_map_path_passthrough env (extractIp req) none hz2 mp hres
    simp [hres] at hok
    rcases this with h1 | h1 <;> subst h1 <;> simpa using hok.2.symm

/-- Witness for C3 at the initial state. -/
theorem C3_witness :
    (none : Option String) = none ∧
    (∀ env ip cur hz mp,
      (FloodApp.get_flood_hazard_from_ip env ip cur).result = .ok (hz, mp) →
      mp = none ∨ mp = cur) ∧
    (∀ env req hz b, (FloodApp.check_flood_hazard env req none).1 = .ok hz b → b = false) ∧
    (∀ fe, FloodApp.serve_map fe none = .notFound) :=
  C3_current_map_path_always_none none Reachable.init

/-- Claim C6: every `/check_flood_hazard` response is either the 200
JSON body with exactly the fields `hazard` and `map_available`, where
`map_available` is true iff the returned map path is not `none`, or the
500 JSON error body when the resolver raised. -/
theorem C6_check_response_shape (env : ResolverEnv) (req : Request)
    (st : Option String) :
    (∃ hz mp,
      (get_flood_hazard_from_ip env (extractIp req) st).result = .ok (hz, mp) ∧
      (check_flood_hazard env req st).1 = .ok hz mp.isSome ∧
      (check_flood_hazard env req st).1.status = 200 ∧
      (mp.isSome = true ↔ mp ≠ none)) ∨
    (∃ e,
      (get_flood_hazard_from_ip env (extractIp req) st).result = .error e ∧
      (check_flood_hazard env req st).1 = .error e ∧
      (check_flood_hazard env req st).1.status = 500) := by
  unfold check_flood_hazard
  cases h : (get_flood_hazard_from_ip env (extractIp req) st).result with
  | ok p =>
    obtain ⟨hz, mp⟩ := p
    exact Or.inl ⟨hz, mp, rfl, by simp [h], by simp [h, HazardResponse.status],
      by cases mp <;> simp⟩
  | error e =>
    exact Or.inr ⟨e, rfl, by simp [h], by simp [h, HazardResponse.status]⟩

/-- Claim C7: `/map` returns the image at `current_map_path` when the
path is set and the file exists, and the 404 "Map not found" response
otherwise — given that `os.path.exists` is false on the empty string
(which Python's truthiness test additionally short-circuits). -/
theorem C7_serve_map (fe : String → Bool) (st : Option String)
    (hE : fe ("") = false) :
    (∀ p, st = some p → fe p = true →
      serve_map fe st = .file p ∧ (serve_map fe st).status = 200) ∧
    ((∀ p, st = some p → fe p = false) →
      serve_map fe st = .notFound ∧ (serve_map fe st).status = 404) := by
  constructor
  · intro p hp hfe
    subst hp
    have hne : p ≠ "" := by intro h0; rw [h0] at hfe; rw [hE] at hfe; exact Bool.noConfusion hfe
    simp [serve_map, hne, hfe, MapResponse.status]
  · intro hall
    cases st with
    | none => exact ⟨rfl, rfl⟩
    | some p =>
      by_cases hp : p = ""
      · simp [serve_map, hp, MapResponse.status]
      · simp [serve_map, hp, hall p rfl, MapResponse.status]

/-- Witness for C7: with a map file on disk at `m.png` and the state
pointing at it, `/map` serves the file. -/
theorem C7_witness :
    FloodApp.serve_map (fun s => decide (s = "m.png")) (some ("m.png")) = .file ("m.png") :=
  ((C7_serve_map (fun s => decide (s = "m.png")) (some ("m.png")) (by decide)).1
    "m.png" rfl (by decide)).1

/-- Claim C5: the resolver builds the query point with longitude as x
and latitude as y, tags it WGS84 (EPSG:4326), reprojects it to the
dataset CRS exactly when the two CRS differ, and joins against the
aligned point. -/
theorem C5_point_construction (longitude latitude : Coord)
    (rp : String → Coord × Coord → Coord × Coord) (dsCrs : String) :
    (mkQueryPoint longitude latitude).x = longitude ∧
    (mkQueryPoint longitude latitude).y = latitude ∧
    (mkQueryPoint longitude latitude).crs = "EPSG:4326" ∧
    (dsCrs ≠ "EPSG:4326" →
      alignCrs rp (mkQueryPoint longitude latitude) dsCrs =
        ⟨(rp dsCrs (longitude, latitude)).1, (rp dsCrs (longitude, latitude)).2, dsCrs⟩) ∧
    (dsCrs = "EPSG:4326" →
      alignCrs rp (mkQueryPoint longitude latitude) dsCrs =
        mkQueryPoint longitude latitude) ∧
    (∀ (geo : HttpResult) (gdf : Dataset) (ip cur : Option String),
      geoLocate geo = some ⟨some latitude, some longitude⟩ →
      gdf.crs = dsCrs →
      (get_flood_hazard_from_ip ⟨geo, .ok gdf, rp⟩ ip cur).result =
        .ok (selectHazard (sjoinWithin
          ((alignCrs rp (mkQueryPoint longitude latitude) dsCrs).x,
           (alignCrs rp (mkQueryPoint longitude latitude) dsCrs).y) gdf), cur)) := by
  refine ⟨rfl, rfl, rfl, ?_, ?_, ?_⟩
  · intro hne
    simp [alignCrs, mkQueryPoint, Ne.symm hne]
  · intro heq
    subst heq
    simp [alignCrs, mkQueryPoint]
  · intro geo gdf ip cur hg hcrs
    unfold get_flood_hazard_from_ip
    simp [hg, hcrs]

/-- Witness for C5 with a differing dataset CRS, discharging both
conditional branches at concrete inputs. -/
theorem C5_witness :
    FloodApp.alignCrs FloodApp.rpId (FloodApp.mkQueryPoint 3 7) "EPSG:32651" =
      ⟨3, 7, "EPSG:32651"⟩ ∧
    FloodApp.alignCrs FloodApp.rpId (FloodApp.mkQueryPoint 3 7) "EPSG:4326" =
      FloodApp.mkQueryPoint 3 7 :=
  ⟨(C5_point_construction 3 7 rpId ("EPSG:32651")).2.2.2.1 (by decide),
   (C5_point_construction 3 7 rpId ("EPSG:4326")).2.2.2.2.1 rfl⟩

/-- Claim C9: `download_map_data` returns the fixed path with no
download when the file already exists; when absent it streams the fetch
and writes the chunks; and a fetch failure is re-raised, not converted
to a sentinel. -/
theorem C9_download_idempotent_fails_loudly (env : DownloadEnv) :
    (env.fileExists = true →
      download_map_data env = ⟨.ok DATA_FILE, false, []⟩) ∧
    (env.fileExists = false → ∀ chunks, env.fetch = .ok chunks →
      download_map_data env = ⟨.ok DATA_FILE, true, chunks⟩) ∧
    (env.fileExists = false → ∀ e, env.fetch = .error e →
      (download_map_data env).result = .error e ∧
      (download_map_data env).downloaded = true) := by
  refine ⟨?_, ?_, ?_⟩
  · intro h; simp [download_map_data, h]
  · intro h chunks hf; simp [download_map_data, h, hf]
  · intro h e hf; simp [download_map_data, h, hf]

/-- Witness for C9: file already present, then a failing fetch on an
absent file. -/
theorem C9_witness :
    FloodApp.download_map_data ⟨true, .ok []⟩ =
      ⟨.ok FloodApp.DATA_FILE, false, []⟩ ∧
    (FloodApp.download_map_data ⟨false, .error ("HTTP 404")⟩).result = .error ("HTTP 404") :=
  ⟨(C9_download_idempotent_fails_loudly ⟨true, .ok []⟩).1 rfl,
   ((C9_download_idempotent_fails_loudly ⟨false, .error ("HTTP 404")⟩).2.2 rfl ("HTTP 404") rfl).1⟩

/-- Claim C10: the Vercel resolver (lines 48–83) and the standalone
"map test.py" resolver (lines 183–218) are behaviourally equivalent:
same requested URL, same `(hazard, map_path)` result, same file reads,
for every IP, geolocation response, dataset and map-path state. -/
theorem C10_variants_equivalent (env : ResolverEnv) (ip cur : Option String) :
    get_flood_hazard_from_ip_maptest env ip cur = get_flood_hazard_from_ip env ip cur ∧
    geoUrl_maptest ip = geoUrl ip := by
  constructor
  · unfold get_flood_hazard_from_ip_maptest get_flood_hazard_from_ip
      geoUrl_maptest geoUrl
    rfl
  · unfold geoUrl_maptest geoUrl
    rfl

/-- Helper: the label-selection code (lines 78–81) applied to the
spatial-join output equals the direct first-row rule. -/
theorem selectHazard_sjoin (p : Coord × Coord) (ds : Dataset) :
    selectHazard (sjoinWithin p ds) = firstRowLabel ds p := by
  unfold selectHazard sjoinWithin firstRowLabel
  cases h : (ds.rows.filter (fun r => r.contains p)).map PolyRow.hazard with
  | nil => simp
  | cons a l => by_cases ha : (a :: l).all Option.isNone <;> simp [ha]

/-- Claim C1 is false on the code: there is no in-memory dataset cache —
`gpd.read_file(DATA_FILE)` runs inside `get_flood_hazard_from_ip` on
every call.  With a working environment, two consecutive
`/check_flood_hazard` requests perform two dataset-file reads, and the
call after the first successful one still performs a read. -/
theorem C1_counterexample :
    (runRequests envOk [reqEx, reqEx] none).1 = 2 ∧
    (get_flood_hazard_from_ip envOk (extractIp reqEx)
        (check_flood_hazard envOk reqEx none).2).fileReads = 1 := by
  constructor <;> rfl

/-- Claim C1, amended: the dataset is re-read and re-parsed on every
hazard-check call whose geolocation succeeds with both coordinates
present — one file read per call, `n` reads over `n` requests. -/
theorem C1_amended_read_per_call (env : ResolverEnv) (reqs : List Request)
    (st : Option String)
    (hgeo : ∃ gd, geoLocate env.geo = some gd ∧
      gd.latitude.isSome = true ∧ gd.longitude.isSome = true) :
    (runRequests env reqs st).1 = reqs.length := by
  obtain ⟨gd, hg, hlat, hlon⟩ := hgeo
  obtain ⟨lat, hlat⟩ := Option.isSome_iff_exists.mp hlat
  obtain ⟨lon, hlon⟩ := Option.isSome_iff_exists.mp hlon
  have hread : ∀ ip cur, (get_flood_hazard_from_ip env ip cur).fileReads = 1 := by
    intro ip cur
    unfold get_flood_hazard_from_ip
    simp only [hg, hlat, hlon]
    cases env.readFile <;> simp
  induction reqs generalizing st with
  | nil => rfl
  | cons r rs ih =>
    simp [runRequests, hread, ih]
    omega

/-- Witness for the amended C1: three requests, three reads. -/
theorem C1_amended_witness :
    (FloodApp.runRequests FloodApp.envOk [FloodApp.reqEx, FloodApp.reqEx, FloodApp.reqEx]
        none).1 = 3 :=
  C1_amended_read_per_call envOk [reqEx, reqEx, reqEx] none
    ⟨⟨some 0, some 0⟩, rfl, rfl, rfl⟩

/-- Claim C2 is false on the code for one of its three failure classes:
a success response that omits latitude (or longitude) is NOT converted
to `(None, None)` — `geo_data.get` yields `None`, which reaches
`Point(longitude, latitude)` outside the `try` block and raises. -/
theorem C2_counterexample :
    (get_flood_hazard_from_ip ⟨.success 200 ⟨none, some 5⟩, .ok dsHigh, rpId⟩
        (some ("1.2.3.4")) none).result =
      .error ("Point coordinates must be numeric, not None") ∧
    (get_flood_hazard_from_ip ⟨.success 200 ⟨none, some 5⟩, .ok dsHigh, rpId⟩
        (some ("1.2.3.4")) none).result ≠ .ok (none, none) := by
  refine ⟨rfl, fun h => ?_⟩
  rw [show (get_flood_hazard_from_ip ⟨.success 200 ⟨none, some 5⟩, .ok dsHigh, rpId⟩
        (some ("1.2.3.4")) none).result =
      .error ("Point coordinates must be numeric, not None") from rfl] at h
  exact Except.noConfusion h

/-- Claim C2, amended: network failures and non-success statuses return
`(None, None)` without touching the dataset, but a success response
omitting latitude or longitude raises out of the resolver instead. -/
theorem C2_amended_geolocation_boundary (geo : HttpResult)
    (rf : Except String Dataset) (rp : String → Coord × Coord → Coord × Coord)
    (ip cur : Option String) :
    (∀ m, geo = .failure m →
      (get_flood_hazard_from_ip ⟨geo, rf, rp⟩ ip cur).result = .ok (none, none) ∧
      (get_flood_hazard_from_ip ⟨geo, rf, rp⟩ ip cur).fileReads = 0) ∧
    (∀ s d, geo = .success s d → 400 ≤ s →
      (get_flood_hazard_from_ip ⟨geo, rf, rp⟩ ip cur).result = .ok (none, none) ∧
      (get_flood_hazard_from_ip ⟨geo, rf, rp⟩ ip cur).fileReads = 0) ∧
    (∀ s d, geo = .success s d → s < 400 →
      d.latitude = none ∨ d.longitude = none →
      ∃ e, (get_flood_hazard_from_ip ⟨geo, rf, rp⟩ ip cur).result = .error e) := by
  refine ⟨?_, ?_, ?_⟩
  · intro m hm
    subst hm
    exact ⟨rfl, rfl⟩
  · intro s d hs h400
    subst hs
    unfold get_flood_hazard_from_ip
    simp [geoLocate, h400]
  · intro s d hs hlt hmiss
    subst hs
    unfold get_flood_hazard_from_ip
    have hnot : ¬ 400 ≤ s := by omega
    simp only [geoLocate, if_neg hnot]
    rcases hmiss with hla | hlo
    · rw [hla]
      cases hlo2 : d.longitude <;> exact ⟨_, rfl⟩
    · rw [hlo]
      exact ⟨_, rfl⟩

/-- Witness for the amended C2 at a timed-out geolocation call and at a
non-success status. -/
theorem C2_amended_witness :
    (FloodApp.get_flood_hazard_from_ip
        ⟨.failure ("ReadTimeout"), .ok FloodApp.dsHigh, FloodApp.rpId⟩
        (some ("1.2.3.4")) none).result = .ok (none, none) ∧
    (FloodApp.get_flood_hazard_from_ip
        ⟨.success 503 ⟨some 0, some 0⟩, .ok FloodApp.dsHigh, FloodApp.rpId⟩
        (some ("1.2.3.4")) none).result = .ok (none, none) :=
  ⟨((C2_amended_geolocation_boundary (.failure ("ReadTimeout")) (.ok dsHigh) rpId
      (some ("1.2.3.4")) none).1 ("ReadTimeout") rfl).1,
   ((C2_amended_geolocation_boundary (.success 503 ⟨some 0, some 0⟩) (.ok dsHigh) rpId
      (some ("1.2.3.4")) none).2.1 503 ⟨some 0, some 0⟩ rfl (by omega)).1⟩

/-- Claim C4 is false on the code: `iloc[0]` takes the FIRST result
row's label even when that label is missing.  With a dataset whose
first matching polygon has a missing label and whose second is
labelled HIGH, the join yields a non-missing row yet the resolver
returns the sentinel, not HIGH. -/
theorem C4_counterexample :
    sjoinWithin (0, 0) dsNanFirst = [none, some ("HIGH")] ∧
    (get_flood_hazard_from_ip ⟨.success 200 ⟨some 0, some 0⟩, .ok dsNanFirst, rpId⟩
        none none).result = .ok (none, none) ∧
    (none : Option String) ≠ some ("HIGH") :=
  ⟨rfl, rfl, by decide⟩

/-- Claim C4, amended: when the join has at least one match and not all
matched labels are missing, the resolver returns the FIRST matched
row's label (itself possibly missing); otherwise — in particular for
every point matched by no polygon — the no-data sentinel.  The map
path is the unchanged `current_map_path`. -/
theorem C4_amended_first_row_label (env : ResolverEnv) (ip cur : Option String)
    (gd : GeoData) (lat lon : Coord) (gdf : Dataset)
    (hg : geoLocate env.geo = some gd) (hlat : gd.latitude = some lat)
    (hlon : gd.longitude = some lon) (hrf : env.readFile = .ok gdf) :
    (get_flood_hazard_from_ip env ip cur).result =
      .ok (firstRowLabel gdf
        ((alignCrs env.reproject (mkQueryPoint lon lat) gdf.crs).x,
         (alignCrs env.reproject (mkQueryPoint lon lat) gdf.crs).y), cur) ∧
    (gdf.rows.filter (fun r => r.contains
        ((alignCrs env.reproject (mkQueryPoint lon lat) gdf.crs).x,
         (alignCrs env.reproject (mkQueryPoint lon lat) gdf.crs).y)) = [] →
      (get_flood_hazard_from_ip env ip cur).result = .ok (none, cur)) := by
  have h1 : (get_flood_hazard_from_ip env ip cur).result =
      .ok (firstRowLabel gdf
        ((alignCrs env.reproject (mkQueryPoint lon lat) gdf.crs).x,
         (alignCrs env.reproject (mkQueryPoint lon lat) gdf.crs).y), cur) := by
    unfold get_flood_hazard_from_ip
    simp only [hg, hlat, hlon, hrf]
    rw [selectHazard_sjoin]
  refine ⟨h1, fun hempty => ?_⟩
  rw [h1]
  unfold firstRowLabel
  simp [hempty]

/-- Witness for the amended C4: the spec §8 example — point (0,0)
inside the single HIGH polygon yields HIGH; point (50,50) outside it
yields the sentinel. -/
theorem C4_amended_witness :
    (FloodApp.get_flood_hazard_from_ip FloodApp.envOk none none).result =
      .ok (some ("HIGH"), none) ∧
    (FloodApp.get_flood_hazard_from_ip
        ⟨.success 200 ⟨some 50, some 50⟩, .ok FloodApp.dsHigh, FloodApp.rpId⟩
        none none).result = .ok (none, none) :=
  ⟨(C4_amended_first_row_label envOk none none ⟨some 0, some 0⟩ 0 0 dsHigh
      rfl rfl rfl rfl).1,
   (C4_amended_first_row_label ⟨.success 200 ⟨some 50, some 50⟩, .ok dsHigh, rpId⟩
      none none ⟨some 50, some 50⟩ 50 50 dsHigh rfl rfl rfl rfl).2 rfl⟩

/-- Claim C8 is false on the code: the standalone variant (line 232)
ignores the forwarded-for header entirely, and the Vercel variant
(lines 96–99) applies the first-comma-entry/strip normalization to the
raw connection address as well, not only to the header. -/
theorem C8_counterexample :
    extractIpStd ⟨some ("9.9.9.9"), some ("203.0.113.7")⟩ = some ("203.0.113.7") ∧
    (some ("203.0.113.7") : Option String) ≠ some ("9.9.9.9") ∧
    extractIp ⟨none, some ("10.0.0.1, 10.0.0.2")⟩ = some ("10.0.0.1") ∧
    (some ("10.0.0.1") : Option String) ≠ some ("10.0.0.1, 10.0.0.2") :=
  ⟨rfl, by decide, rfl, by decide⟩

/-- Claim C8, amended: in the Vercel variant the IP passed onward is
the whitespace-trimmed first comma-separated entry of the forwarded-for
header when present and non-empty, and otherwise of the raw connection
address (the same normalization applies to it); in the standalone
variant the raw connection address is passed unchanged and the header
is ignored. -/
theorem C8_amended_ip_extraction (req : Request) :
    (∀ hdr, req.xForwardedFor = some hdr → hdr ≠ "" →
      extractIp req = some (pyStrip (pySplitFirst hdr))) ∧
    (req.xForwardedFor = none → ∀ r, req.remoteAddr = some r → r ≠ "" →
      extractIp req = some (pyStrip (pySplitFirst r))) ∧
    (req.xForwardedFor = none → req.remoteAddr = none → extractIp req = none) ∧
    (req.xForwardedFor = some ("") → extractIp req = some ("")) ∧
    extractIpStd req = req.remoteAddr := by
  refine ⟨?_, ?_, ?_, ?_, rfl⟩
  · intro hdr hh hne
    unfold extractIp
    simp [hh, Option.orElse, hne]
  · intro hx r hr hne
    unfold extractIp
    simp [hx, hr, Option.orElse, hne]
  · intro hx hr
    unfold extractIp
    simp [hx, hr, Option.orElse]
  · intro hh
    unfold extractIp
    simp [hh, Option.orElse]

/-- Witness for the amended C8: a forwarded-for list yields its trimmed
first entry. -/
theorem C8_amended_witness :
    FloodApp.extractIp ⟨some ("198.51.100.4, 10.0.0.1"), some ("9.9.9.9")⟩ =
      some ("198.51.100.4") :=
  (C8_amended_ip_extraction ⟨some ("198.51.100.4, 10.0.0.1"), some ("9.9.9.9")⟩).1
    ("198.51.100.4, 10.0.0.1") rfl (by decide)

end FloodApp
